import Mathlib

/-!
Verification development for the microshop service-discovery and actor core.

The Go sources are shallowly embedded:
* `pkg/discovery/discovery.go` — the etcd-backed registry client
  (`Register`, `Discover`, `Deregister`) over an explicit etcd store state;
* `cmd/order/main.go` — the three actors (`OrderActor`, `NotificationActor`,
  `OrderClusterActor`) as pure receive functions returning the list of
  `Respond` calls they make;
* the gRPC `ClientManager` (`connectUserService`, `connectOrderService`,
  `Close`) and the discovery phase of the two `main` functions.
-/

namespace Microshop

/-- Embedding of `discovery.ServiceInstance` (Name, Host, Port); the Go `int`
port is `Int`. -/
structure ServiceInstance where
  name : String
  host : String
  port : Int
deriving Repr, DecidableEq

/-- The etcd store as seen through the client calls the repository makes:
a connectivity flag (a disconnected store fails every round trip), the
key-value records each bound to one lease id, and a fresh-lease counter.
An entry of `kvs` is `(key, value, leaseID)`. -/
structure EtcdState where
  connected : Bool
  kvs : List (String × String × Nat)
  nextLease : Nat
deriving Repr, DecidableEq

/-- Remove every record stored under key `k` (etcd `Put` semantics: a later
put for the same key replaces the earlier binding). -/
def removeKey (k : String) : List (String × String × Nat) → List (String × String × Nat)
  | [] => []
  | e :: rest => if e.1 = k then removeKey k rest else e :: removeKey k rest

/-- The records stored under key `k`. -/
def recordsFor (k : String) : List (String × String × Nat) → List (String × String × Nat)
  | [] => []
  | e :: rest => if e.1 = k then e :: recordsFor k rest else recordsFor k rest

/-- Structural string-prefix test (`p` is a prefix of `s`), used to model the
etcd range query `[key, prefixEnd)` that `WithPrefix` performs. -/
def strHasPre (p s : String) : Bool :=
  p.data.isPrefixOf s.data

/-- The `(key, value)` pairs of the records whose key starts with `p`
(etcd `Get ... WithPrefix`). -/
def rangeKvs (p : String) : List (String × String × Nat) → List (String × String)
  | [] => []
  | e :: rest =>
    if strHasPre p e.1 then (e.1, e.2.1) :: rangeKvs p rest else rangeKvs p rest

/-- Model of `client.Grant(ctx, ttl)`: issue a fresh lease; fails without
connectivity. -/
def etcdGrant (st : EtcdState) : Except String (Nat × EtcdState) :=
  if st.connected then
    .ok (st.nextLease, { st with nextLease := st.nextLease + 1 })
  else
    .error "context deadline exceeded"

/-- Model of `client.Put(ctx, key, value, WithLease(lease))`: replace the binding of
`key` with `(key, value, lease)`. -/
def etcdPut (st : EtcdState) (k v : String) (lease : Nat) : Except String EtcdState :=
  if st.connected then
    .ok { st with kvs := (k, v, lease) :: removeKey k st.kvs }
  else
    .error "context deadline exceeded"

/-- Model of `client.Get(ctx, key, WithPrefix())`. -/
def etcdRange (st : EtcdState) (p : String) : Except String (List (String × String)) :=
  if st.connected then .ok (rangeKvs p st.kvs) else .error "context deadline exceeded"

/-- Model of `client.Delete(ctx, key)`. -/
def etcdDelete (st : EtcdState) (k : String) : Except String EtcdState :=
  if st.connected then .ok { st with kvs := removeKey k st.kvs } else
    .error "context deadline exceeded"

/-- Model of `client.KeepAlive(ctx, lease.ID)`: the call itself only fails without
connectivity; the renewal loop runs in a background goroutine. -/
def etcdKeepAlive (st : EtcdState) (_lease : Nat) : Except String Unit :=
  if st.connected then .ok () else .error "context deadline exceeded"

/-- The registration key `fmt.Sprintf("%s%s/%s:%d", prefix, name, host, port)`
of discovery.go line 39/91. -/
def registerKey (pre : String) (i : ServiceInstance) : String :=
  pre ++ i.name ++ "/" ++ i.host ++ ":" ++ toString i.port

/-- The registration value `fmt.Sprintf("%s:%d", host, port)` of line 40. -/
def registerValue (i : ServiceInstance) : String :=
  i.host ++ ":" ++ toString i.port

/-- Embedding of `ServiceDiscovery.Register` (discovery.go lines 38–67): grant a 30s lease,
put the record bound to it, start the keep-alive; each failing round trip is
wrapped and returned. -/
def Register (pre : String) (st : EtcdState) (i : ServiceInstance) :
    Except String EtcdState :=
  match etcdGrant st with
  | .error e => .error ("failed to create lease: " ++ e)
  | .ok (lease, st1) =>
    match etcdPut st1 (registerKey pre i) (registerValue i) lease with
    | .error e => .error ("failed to register service: " ++ e)
    | .ok st2 =>
      match etcdKeepAlive st2 lease with
      | .error e => .error ("failed to keep alive: " ++ e)
      | .ok _ => .ok st2

/-- Embedding of `ServiceDiscovery.Discover` (discovery.go lines 69–88): prefix query for
`<prefix><serviceName>/`; each returned value becomes a `ServiceInstance`
with the whole value in `Host` and the zero value in `Port`. -/
def Discover (pre : String) (st : EtcdState) (serviceName : String) :
    Except String (List ServiceInstance) :=
  match etcdRange st (pre ++ serviceName ++ "/") with
  | .error e => .error ("failed to discover service: " ++ e)
  | .ok pairs =>
    .ok (pairs.map fun kv => { name := serviceName, host := kv.2, port := 0 })

/-- Embedding of `ServiceDiscovery.Deregister` (discovery.go lines 90–97): delete the
instance's record. -/
def Deregister (pre : String) (st : EtcdState) (i : ServiceInstance) :
    Except String EtcdState :=
  match etcdDelete st (registerKey pre i) with
  | .error e => .error ("failed to deregister service: " ++ e)
  | .ok st' => .ok st'

@[simp]
theorem removeKey_nil (k : String) : removeKey k [] = [] := rfl

@[simp]
theorem recordsFor_nil (k : String) : recordsFor k [] = [] := rfl

theorem recordsFor_removeKey (k : String) (l : List (String × String × Nat)) :
    recordsFor k (removeKey k l) = [] := by
  induction l with
  | nil => rfl
  | cons e rest ih =>
    by_cases h : e.1 = k
    · simp [removeKey, h, ih]
    · simp [removeKey, recordsFor, h, ih]

theorem removeKey_removeKey (k : String) (l : List (String × String × Nat)) :
    removeKey k (removeKey k l) = removeKey k l := by
  induction l with
  | nil => rfl
  | cons e rest ih =>
    by_cases h : e.1 = k
    · simp [removeKey, h, ih]
    · simp [removeKey, h, ih]

theorem mem_rangeKvs {p k v : String} {l : List (String × String × Nat)} :
    (k, v) ∈ rangeKvs p l ↔ ∃ ls, (k, v, ls) ∈ l ∧ strHasPre p k = true := by
  induction l with
  | nil => simp [rangeKvs]
  | cons e rest ih =>
    obtain ⟨a, b, c⟩ := e
    by_cases h : strHasPre p a
    · simp only [rangeKvs, h, if_true, List.mem_cons, ih, Prod.mk.injEq]
      constructor
      · rintro (⟨rfl, rfl⟩ | ⟨ls, hmem, hp⟩)
        · exact ⟨c, Or.inl ⟨rfl, rfl, rfl⟩, h⟩
        · exact ⟨ls, Or.inr hmem, hp⟩
      · rintro ⟨ls, ⟨rfl, rfl, rfl⟩ | hmem, hp⟩
        · exact Or.inl ⟨rfl, rfl⟩
        · exact Or.inr ⟨ls, hmem, hp⟩
    · simp only [rangeKvs, h, if_false, List.mem_cons, ih, Prod.mk.injEq,
        Bool.false_eq_true, if_neg, not_false_iff]
      constructor
      · rintro ⟨ls, hmem, hp⟩
        exact ⟨ls, Or.inr hmem, hp⟩
      · rintro ⟨ls, ⟨rfl, rfl, rfl⟩ | hmem, hp⟩
        · exact absurd hp h
        · exact ⟨ls, hmem, hp⟩

theorem rangeKvs_eq_nil_of_no_match {p : String} {l : List (String × String × Nat)}
    (h : ∀ e ∈ l, strHasPre p e.1 = false) : rangeKvs p l = [] := by
  induction l with
  | nil => rfl
  | cons e rest ih =>
    have he := h e (List.mem_cons_self e rest)
    simp only [rangeKvs, he, Bool.false_eq_true, if_neg, not_false_iff]
    exact ih fun x hx => h x (List.mem_cons_of_mem _ hx)

/-! ## The actors of cmd/order/main.go

Each `Receive` method is embedded as a pure function of the message (and,
for the keyed-store actor, the actor's state).  A call to `ctx.Respond`
becomes an element of the returned reply list, so the number of `Respond`
calls made while processing a message is the length of that list.  The
`time.Now().UnixNano()` read is an explicit `now : Nat` input. -/

/-- An order line item (`OrderItem`).  The Go `float64` price is modelled as
`Float`; no claim inspects it. -/
structure OrderItem where
  productID : String
  productName : String
  quantity : Int
  price : Float
deriving Repr

/-- A reply sent through `ctx.Respond` by one of the order actors: either an
`OrderResponse{OrderID, Status, Message}` or an `OrderStatus{OrderID, Status}`. -/
inductive OrderReply where
  | orderResponse (orderID status message : String)
  | orderStatus (orderID status : String)
deriving Repr, DecidableEq

/-- The messages `OrderActor.Receive` switches on (user messages and the
lifecycle signals it names). -/
inductive OrderMsg where
  | createOrder (userID : String) (items : List OrderItem)
  | getOrderStatus (orderID : String)
  | started
  | stopping
  | stopped
deriving Repr

/-- Embedding of `OrderActor.Receive` (main.go lines 116–149): `CreateOrder` responds once
with a fresh `ORD-<UnixNano>` id and status "created"; `GetOrderStatus`
responds once with status "processing"; lifecycle signals only log. -/
def receiveOrder (msg : OrderMsg) (now : Nat) : List OrderReply :=
  match msg with
  | .createOrder _ _ =>
    [.orderResponse ("ORD-" ++ toString now) "created" "Order created successfully"]
  | .getOrderStatus oid => [.orderStatus oid "processing"]
  | .started => []
  | .stopping => []
  | .stopped => []

/-- The messages `NotificationActor.Receive` can see.  Its switch names only
`SendNotification` and `Started`; the other lifecycle signals fall through
with no effect. -/
inductive NotificationMsg where
  | sendNotification (recipient ty message : String)
  | started
  | stopping
  | stopped
deriving Repr

/-- Embedding of the NotificationResponse reply (Success, Message). -/
structure NotificationReply where
  success : Bool
  message : String
deriving Repr, DecidableEq

/-- Embedding of `NotificationActor.Receive` (main.go lines 184–201). -/
def receiveNotification (msg : NotificationMsg) : List NotificationReply :=
  match msg with
  | .sendNotification _ _ _ => [⟨true, "Notification sent successfully"⟩]
  | .started => []
  | .stopping => []
  | .stopped => []

/-- The `OrderInfo` record the keyed-store actor keeps per order. -/
structure OrderInfo where
  orderID : String
  userID : String
  items : List OrderItem
  status : String
  createdAt : Nat
deriving Repr

/-- State of the `OrderClusterActor`: `orders` is `none` until the `Started`
signal allocates the map (`a.orders` is a nil Go map before that). -/
structure OrderClusterState where
  orders : Option (List (String × OrderInfo))
deriving Repr

/-- The initial state of a freshly produced `OrderClusterActor`. -/
def initClusterState : OrderClusterState := ⟨none⟩

/-- The messages `OrderClusterActor.Receive` can see. -/
inductive ClusterMsg where
  | started
  | createOrderCluster (userID : String) (items : List OrderItem)
  | getOrderStatusCluster (orderID : String)
  | stopping
  | stopped
deriving Repr

/-- Association-list lookup mirroring a Go map read (first binding wins;
`etcdPut`-style insertion keeps at most one binding per key). -/
def alookup {α : Type} (k : String) : List (String × α) → Option α
  | [] => none
  | e :: rest => if e.1 = k then some e.2 else alookup k rest

/-- Drop every binding of key `k` (helper for Go map assignment). -/
def removeEntry {α : Type} (k : String) : List (String × α) → List (String × α)
  | [] => []
  | e :: rest => if e.1 = k then removeEntry k rest else e :: removeEntry k rest

/-- Go map assignment `m[k] = v`: replaces any existing binding of `k`. -/
def mapInsert {α : Type} (k : String) (v : α) (m : List (String × α)) :
    List (String × α) :=
  (k, v) :: removeEntry k m

/-- Embedding of `OrderClusterActor.Receive` (main.go lines 219–242).  `Started`
allocates the empty map; `CreateOrderCluster` stores a fresh
`ORD-<UnixNano>` order with status "pending" and responds once;
`GetOrderStatusCluster` responds with the stored status or "not found".
Writing to the nil map before `Started` is a Go runtime panic, returned as
`.error`; reading a nil Go map is legal and behaves as an empty map. -/
def receiveCluster (st : OrderClusterState) (msg : ClusterMsg) (now : Nat) :
    Except String (OrderClusterState × List OrderReply) :=
  match msg with
  | .started => .ok (⟨some []⟩, [])
  | .createOrderCluster uid its =>
    match st.orders with
    | none => .error "assignment to entry in nil map"
    | some m =>
      let orderID := "ORD-" ++ toString now
      let info : OrderInfo :=
        { orderID := orderID, userID := uid, items := its,
          status := "pending", createdAt := now }
      .ok (⟨some (mapInsert orderID info m)⟩,
        [.orderResponse orderID "pending" ""])
  | .getOrderStatusCluster oid =>
    match alookup oid (st.orders.getD []) with
    | some info => .ok (st, [.orderStatus info.orderID info.status])
    | none => .ok (st, [.orderStatus oid "not found"])
  | .stopping => .ok (st, [])
  | .stopped => .ok (st, [])

/-! ## The gRPC ClientManager (pkg/grpc client file)

`connectUserService` / `connectOrderService` are embedded as the function
from the (optional) discovery client and store state to the dial target
string; `Close` as the aggregation of the two optional close results. -/

/-- The target chosen by `ClientManager.connectUserService` (lines 56–92):
start from the static default "localhost:50051"; if a discovery client
exists and its `Discover("user-service")` call returns without error and
with a non-empty instance list, dial the first instance's `Host`. -/
def connectUserServiceTarget (pre : String) (disc : Option EtcdState) : String :=
  match disc with
  | none => "localhost:50051"
  | some st =>
    match Discover pre st "user-service" with
    | .ok (inst :: _) => inst.host
    | _ => "localhost:50051"

/-- The target chosen by `ClientManager.connectOrderService` (lines 95–131),
default "localhost:50052", service name "order-service". -/
def connectOrderServiceTarget (pre : String) (disc : Option EtcdState) : String :=
  match disc with
  | none => "localhost:50052"
  | some st =>
    match Discover pre st "order-service" with
    | .ok (inst :: _) => inst.host
    | _ => "localhost:50052"

/-- One gRPC connection as `Close` sees it: absent (`none`), or present with
the result its `Close()` call will produce. -/
def ConnState := Option (Except String Unit)

/-- The `errs` list built by `ClientManager.Close` (lines 144–164): a wrapped
entry per existing connection whose close fails, user first, order second. -/
def closeErrs (userConn orderConn : ConnState) : List String :=
  (match userConn with
   | some (.error e) => ["user connection close error: " ++ e]
   | _ => []) ++
  (match orderConn with
   | some (.error e) => ["order connection close error: " ++ e]
   | _ => [])

/-- Embedding of `ClientManager.Close`: returns the aggregate error when `errs` is
non-empty (Go formats the whole list into one `errors closing connections`
error; the model keeps the list), and nil otherwise. -/
def clientManagerClose (userConn orderConn : ConnState) :
    Except (List String) Unit :=
  match closeErrs userConn orderConn with
  | [] => .ok ()
  | es => .error es

/-! ## The discovery phase of the two main functions -/

/-- Outcome of the order service startup steps that involve the registry
(cmd/order/main.go lines 41–57): `logger.Fatal` aborts the process. -/
inductive OrderStartup where
  | fatalEtcdConnect
  | fatalRegisterFailed
  | registered (st : EtcdState)
deriving Repr

/-- The order service `main`: a failing `NewServiceDiscovery` is
`logger.Fatal` ("Failed to connect to etcd"); a failing `Register` is
`logger.Fatal` ("Failed to register service"); otherwise the service runs
registered.  `etcdResult` stands for the `NewServiceDiscovery` call. -/
def orderMainStartup (pre : String) (etcdResult : Except String EtcdState)
    (inst : ServiceInstance) : OrderStartup :=
  match etcdResult with
  | .error _ => .fatalEtcdConnect
  | .ok st =>
    match Register pre st inst with
    | .error _ => .fatalRegisterFailed
    | .ok st' => .registered st'

/-- The gateway `main` (gateway entry point, lines 54–58): a failing
`NewServiceDiscovery` is only `logger.Warn` ("continuing without service
discovery"); the gateway is then built with a nil discovery client
(`none`), and startup always proceeds. -/
def gatewayMainDiscovery (etcdResult : Except String EtcdState) :
    Option EtcdState :=
  match etcdResult with
  | .error _ => none
  | .ok st => some st

/-! ## Helper lemmas -/

/-- Register on a connected store succeeds and replaces the binding of the
instance's key with a record bound to the freshly granted lease. -/
theorem register_connected (pre : String) (i : ServiceInstance) (st : EtcdState)
    (h : st.connected = true) :
    Register pre st i = .ok
      { connected := st.connected,
        kvs := (registerKey pre i, registerValue i, st.nextLease) ::
          removeKey (registerKey pre i) st.kvs,
        nextLease := st.nextLease + 1 } := by
  simp [Register, etcdGrant, etcdPut, etcdKeepAlive, h]

theorem removeKey_cons_self (k v : String) (ls : Nat)
    (l : List (String × String × Nat)) :
    removeKey k ((k, v, ls) :: l) = removeKey k l := by
  simp [removeKey]

theorem recordsFor_cons_self (k v : String) (ls : Nat)
    (l : List (String × String × Nat)) :
    recordsFor k ((k, v, ls) :: l) = (k, v, ls) :: recordsFor k l := by
  simp [recordsFor]

/-! ## Claim theorems -/

/-- C1: calling `Register` a second time for the same `ServiceInstance` is
re-registration, not an error: both calls return ok, the store keeps exactly
one record under the instance's key, that record carries the registered
value and is bound to exactly one lease, and every record under any other
key is exactly as it was before both calls. -/
theorem register_idempotent_reRegistration (pre : String) (i : ServiceInstance)
    (st : EtcdState) (h : st.connected = true) :
    ∃ st1 st2, Register pre st i = .ok st1 ∧ Register pre st1 i = .ok st2 ∧
      (∃ lease, recordsFor (registerKey pre i) st2.kvs =
        [(registerKey pre i, registerValue i, lease)]) ∧
      removeKey (registerKey pre i) st2.kvs =
        removeKey (registerKey pre i) st.kvs := by
  refine ⟨_, _, register_connected pre i st h, register_connected pre i _ h, ?_, ?_⟩
  · exact ⟨st.nextLease + 1, by
      simp [recordsFor_cons_self, removeKey_cons_self, removeKey_removeKey,
        recordsFor_removeKey]⟩
  · simp [removeKey_cons_self, removeKey_removeKey]

/-- Witness for C1 at a concrete instance and an initially empty store. -/
theorem register_idempotent_reRegistration_witness :
    ∃ st1 st2,
      Register "/microshop/services/" ⟨true, [], 0⟩ ⟨"order-service", "10.0.0.5", 50052⟩ =
        .ok st1 ∧
      Register "/microshop/services/" st1 ⟨"order-service", "10.0.0.5", 50052⟩ = .ok st2 ∧
      (∃ lease,
        recordsFor (registerKey "/microshop/services/" ⟨"order-service", "10.0.0.5", 50052⟩)
          st2.kvs =
        [(registerKey "/microshop/services/" ⟨"order-service", "10.0.0.5", 50052⟩,
          registerValue ⟨"order-service", "10.0.0.5", 50052⟩, lease)]) ∧
      removeKey (registerKey "/microshop/services/" ⟨"order-service", "10.0.0.5", 50052⟩)
        st2.kvs =
      removeKey (registerKey "/microshop/services/" ⟨"order-service", "10.0.0.5", 50052⟩)
        [] :=
  register_idempotent_reRegistration "/microshop/services/"
    ⟨"order-service", "10.0.0.5", 50052⟩ ⟨true, [], 0⟩ rfl

/-- C7: `Register` writes exactly the key `<prefix><name>/<host>:<port>` with
value `<host>:<port>` (leaving every other key untouched), `Deregister`
deletes exactly that key, and `Discover` returns the values of exactly the
records whose key starts with `<prefix><name>/`. -/
theorem registry_key_layout (pre : String) (i : ServiceInstance) (st : EtcdState)
    (h : st.connected = true) :
    (∃ st', Register pre st i = .ok st' ∧
      recordsFor (pre ++ i.name ++ "/" ++ i.host ++ ":" ++ toString i.port) st'.kvs =
        [(pre ++ i.name ++ "/" ++ i.host ++ ":" ++ toString i.port,
          i.host ++ ":" ++ toString i.port, st.nextLease)] ∧
      removeKey (pre ++ i.name ++ "/" ++ i.host ++ ":" ++ toString i.port) st'.kvs =
        removeKey (pre ++ i.name ++ "/" ++ i.host ++ ":" ++ toString i.port) st.kvs) ∧
    (∃ st'', Deregister pre st i = .ok st'' ∧
      st''.kvs =
        removeKey (pre ++ i.name ++ "/" ++ i.host ++ ":" ++ toString i.port) st.kvs) ∧
    (∀ name l, Discover pre st name = .ok l →
      (∀ inst ∈ l, ∃ k ls, (k, inst.host, ls) ∈ st.kvs ∧
        strHasPre (pre ++ name ++ "/") k = true) ∧
      (∀ k v ls, (k, v, ls) ∈ st.kvs → strHasPre (pre ++ name ++ "/") k = true →
        ∃ inst ∈ l, inst.host = v)) := by
  refine ⟨⟨_, register_connected pre i st h, ?_, ?_⟩, ?_, ?_⟩
  · simp [registerKey, registerValue, recordsFor_cons_self, recordsFor_removeKey]
  · simp [registerKey, removeKey_cons_self, removeKey_removeKey]
  · refine ⟨⟨st.connected, removeKey (registerKey pre i) st.kvs, st.nextLease⟩,
      ?_, by simp [registerKey]⟩
    simp [Deregister, etcdDelete, h]
  · intro name l hl
    have hrange : etcdRange st (pre ++ name ++ "/") =
        .ok (rangeKvs (pre ++ name ++ "/") st.kvs) := by simp [etcdRange, h]
    rw [Discover, hrange] at hl
    injection hl with hl
    subst hl
    constructor
    · intro inst hinst
      obtain ⟨⟨k, v⟩, hkv, rfl⟩ := List.mem_map.mp hinst
      obtain ⟨ls, hmem, hp⟩ := mem_rangeKvs.mp hkv
      exact ⟨k, ls, hmem, hp⟩
    · intro k v ls hmem hp
      exact ⟨⟨name, v, 0⟩,
        List.mem_map_of_mem _ (mem_rangeKvs.mpr ⟨ls, hmem, hp⟩), rfl⟩

/-- Witness for C7: the Register conjunct at a concrete instance and store. -/
theorem registry_key_layout_witness :
    ∃ st', Register "/microshop/services/" ⟨true, [("/other", "x", 1)], 5⟩
        ⟨"user-service", "10.0.0.7", 50051⟩ = .ok st' ∧
      recordsFor ("/microshop/services/" ++ "user-service" ++ "/" ++ "10.0.0.7" ++
          ":" ++ toString (50051 : Int)) st'.kvs =
        [("/microshop/services/" ++ "user-service" ++ "/" ++ "10.0.0.7" ++ ":" ++
            toString (50051 : Int),
          "10.0.0.7" ++ ":" ++ toString (50051 : Int), 5)] ∧
      removeKey ("/microshop/services/" ++ "user-service" ++ "/" ++ "10.0.0.7" ++
          ":" ++ toString (50051 : Int)) st'.kvs =
        removeKey ("/microshop/services/" ++ "user-service" ++ "/" ++ "10.0.0.7" ++
          ":" ++ toString (50051 : Int)) [("/other", "x", 1)] :=
  (registry_key_layout "/microshop/services/" ⟨"user-service", "10.0.0.7", 50051⟩
    ⟨true, [("/other", "x", 1)], 5⟩ rfl).1

/-- C3: when the store is reachable and no record lives under the service's
key prefix, `Discover` returns `ok []`; when the store round trip fails,
`Discover` returns a non-nil error. -/
theorem discover_empty_vs_error (pre name : String) (st : EtcdState) :
    (st.connected = true →
      (∀ e ∈ st.kvs, strHasPre (pre ++ name ++ "/") e.1 = false) →
      Discover pre st name = .ok []) ∧
    (st.connected = false → ∃ msg, Discover pre st name = .error msg) := by
  constructor
  · intro h hempty
    have hnil : rangeKvs (pre ++ name ++ "/") st.kvs = [] :=
      rangeKvs_eq_nil_of_no_match hempty
    simp [Discover, etcdRange, h, hnil]
  · intro h
    refine ⟨"failed to discover service: context deadline exceeded", ?_⟩
    simp [Discover, etcdRange, h]

/-- Witness for C3: a reachable store with one unrelated record, and an
unreachable store. -/
theorem discover_empty_vs_error_witness :
    Discover "/p/" ⟨true, [("/q/other/h:1", "h:1", 3)], 4⟩ "svc" = .ok [] ∧
    (∃ msg, Discover "/p/" ⟨false, [], 0⟩ "svc" = .error msg) :=
  ⟨(discover_empty_vs_error "/p/" "svc" ⟨true, [("/q/other/h:1", "h:1", 3)], 4⟩).1
      rfl (by decide),
   (discover_empty_vs_error "/p/" "svc" ⟨false, [], 0⟩).2 rfl⟩

/-- C10: every `ServiceInstance` produced by `Discover` carries the queried
service name in `Name`, the zero value in `Port`, and the whole stored value
string (the unsplit dial address) in `Host`. -/
theorem discover_result_shape (pre name : String) (st : EtcdState)
    (l : List ServiceInstance) (h : Discover pre st name = .ok l) :
    ∀ inst ∈ l, inst.name = name ∧ inst.port = 0 ∧
      ∃ k ls, (k, inst.host, ls) ∈ st.kvs ∧
        strHasPre (pre ++ name ++ "/") k = true := by
  cases hc : st.connected with
  | false => simp [Discover, etcdRange, hc] at h
  | true =>
    have hrange : etcdRange st (pre ++ name ++ "/") =
        .ok (rangeKvs (pre ++ name ++ "/") st.kvs) := by simp [etcdRange, hc]
    rw [Discover, hrange] at h
    injection h with h
    subst h
    intro inst hinst
    obtain ⟨⟨k, v⟩, hkv, rfl⟩ := List.mem_map.mp hinst
    obtain ⟨ls, hmem, hp⟩ := mem_rangeKvs.mp hkv
    exact ⟨rfl, rfl, k, ls, hmem, hp⟩

/-- Witness for C10 at a store holding one matching record. -/
theorem discover_result_shape_witness :
    (⟨"svc", "h:1", 0⟩ : ServiceInstance).name = "svc" ∧
    (⟨"svc", "h:1", 0⟩ : ServiceInstance).port = 0 ∧
    ∃ k ls, (k, (⟨"svc", "h:1", 0⟩ : ServiceInstance).host, ls) ∈
        [("/p/svc/h:1", "h:1", 7)] ∧
      strHasPre ("/p/" ++ "svc" ++ "/") k = true :=
  discover_result_shape "/p/" "svc" ⟨true, [("/p/svc/h:1", "h:1", 7)], 9⟩
    [⟨"svc", "h:1", 0⟩] rfl ⟨"svc", "h:1", 0⟩ (by simp)

theorem ordString_ne_empty (s : String) : "ORD-" ++ s ≠ "" := by
  intro h
  have hd : ("ORD-" ++ s).data = "".data := by rw [h]
  rw [String.data_append] at hd
  simp at hd

theorem ordString_ne_bogus (s : String) : "ORD-" ++ s ≠ "bogus" := by
  intro h
  have hd : ("ORD-" ++ s).data = "bogus".data := by rw [h]
  rw [String.data_append] at hd
  have h1 : "ORD-".data = ['O', 'R', 'D', '-'] := rfl
  have h2 : "bogus".data = ['b', 'o', 'g', 'u', 's'] := rfl
  rw [h1, h2] at hd
  simp at hd

theorem alookup_removeEntry_ne {α : Type} (k k0 : String) (m : List (String × α))
    (h : k ≠ k0) :
    alookup k (removeEntry k0 m) = alookup k m := by
  induction m with
  | nil => rfl
  | cons e rest ih =>
    by_cases he : e.1 = k0
    · have hek : ¬(e.1 = k) := by rw [he]; exact fun hh => h hh.symm
      simp [removeEntry, he, alookup, hek, ih, h, Ne.symm h]
    · by_cases hek : e.1 = k
      · simp [removeEntry, he, alookup, hek, h, Ne.symm h]
      · simp [removeEntry, he, alookup, hek, ih, h, Ne.symm h]

theorem mem_of_mem_removeEntry {α : Type} {k : String} {m : List (String × α)}
    {e : String × α} (h : e ∈ removeEntry k m) : e ∈ m := by
  induction m with
  | nil => cases h
  | cons x rest ih =>
    by_cases hx : x.1 = k
    · rw [removeEntry, if_pos hx] at h
      exact List.mem_cons_of_mem _ (ih h)
    · rw [removeEntry, if_neg hx] at h
      rcases List.mem_cons.mp h with rfl | hmem
      · exact List.mem_cons_self _ _
      · exact List.mem_cons_of_mem _ (ih hmem)

/-- The state invariant of the keyed-store actor: every stored record has
`OrderID` equals its map key and its `Status` is "pending". -/
def InvOrders (m : List (String × OrderInfo)) : Prop :=
  ∀ e ∈ m, e.2.orderID = e.1 ∧ e.2.status = "pending"

/-- C2: the keyed-store scenario.  After `Started`, `CreateOrderCluster`
for user "u1" replies once with a non-empty `OrderID` and status "pending";
`GetOrderStatusCluster` with that id replies "pending"; and
`GetOrderStatusCluster` with the never-created id "bogus" replies
"not found" instead of failing. -/
theorem cluster_scenario (now1 now2 now3 now4 : Nat) (items : List OrderItem) :
    ∃ st1, receiveCluster initClusterState .started now1 = .ok (st1, []) ∧
    ∃ st2 oid,
      receiveCluster st1 (.createOrderCluster "u1" items) now2 =
        .ok (st2, [.orderResponse oid "pending" ""]) ∧
      oid ≠ "" ∧
      receiveCluster st2 (.getOrderStatusCluster oid) now3 =
        .ok (st2, [.orderStatus oid "pending"]) ∧
      receiveCluster st2 (.getOrderStatusCluster "bogus") now4 =
        .ok (st2, [.orderStatus "bogus" "not found"]) := by
  refine ⟨⟨some []⟩, rfl, ?_⟩
  set oid := "ORD-" ++ toString now2 with hoid
  set info : OrderInfo :=
    { orderID := oid, userID := "u1", items := items,
      status := "pending", createdAt := now2 } with hinfo
  refine ⟨⟨some [(oid, info)]⟩, oid, ?_, ordString_ne_empty _, ?_, ?_⟩
  · simp [receiveCluster, mapInsert, removeEntry]
  · simp [receiveCluster, alookup]
  · have hb : ¬(oid = "bogus") := ordString_ne_bogus _
    simp [receiveCluster, alookup, hb]

/-- Witness for C2 at concrete timestamps and an empty item list. -/
theorem cluster_scenario_witness :
    ∃ st1, receiveCluster initClusterState .started 1 = .ok (st1, []) ∧
    ∃ st2 oid,
      receiveCluster st1 (.createOrderCluster "u1" []) 2 =
        .ok (st2, [.orderResponse oid "pending" ""]) ∧
      oid ≠ "" ∧
      receiveCluster st2 (.getOrderStatusCluster oid) 3 =
        .ok (st2, [.orderStatus oid "pending"]) ∧
      receiveCluster st2 (.getOrderStatusCluster "bogus") 4 =
        .ok (st2, [.orderStatus "bogus" "not found"]) :=
  cluster_scenario 1 2 3 4 []

/-- C4: each handled request message (`CreateOrder`, `GetOrderStatus`,
`SendNotification`, `CreateOrderCluster`, `GetOrderStatusCluster`) makes its
actor call `Respond` exactly once, and the lifecycle signals (`Started`,
`Stopping`, `Stopped`) make no reply, for all three actors (the keyed-store
actor taken in any post-`Started` state `⟨some m⟩`). -/
theorem respond_exactly_once (now : Nat) (uid oid rcp ty msgText : String)
    (items : List OrderItem) (m : List (String × OrderInfo)) :
    (receiveOrder (.createOrder uid items) now).length = 1 ∧
    (receiveOrder (.getOrderStatus oid) now).length = 1 ∧
    (receiveOrder .started now).length = 0 ∧
    (receiveOrder .stopping now).length = 0 ∧
    (receiveOrder .stopped now).length = 0 ∧
    (receiveNotification (.sendNotification rcp ty msgText)).length = 1 ∧
    (receiveNotification .started).length = 0 ∧
    (receiveNotification .stopping).length = 0 ∧
    (receiveNotification .stopped).length = 0 ∧
    (∃ st' replies, receiveCluster ⟨some m⟩ (.createOrderCluster uid items) now =
        .ok (st', replies) ∧ replies.length = 1) ∧
    (∃ st' replies, receiveCluster ⟨some m⟩ (.getOrderStatusCluster oid) now =
        .ok (st', replies) ∧ replies.length = 1) ∧
    (∃ st', receiveCluster ⟨some m⟩ .started now = .ok (st', [])) ∧
    (∃ st', receiveCluster ⟨some m⟩ .stopping now = .ok (st', [])) ∧
    (∃ st', receiveCluster ⟨some m⟩ .stopped now = .ok (st', [])) := by
  refine ⟨rfl, rfl, rfl, rfl, rfl, rfl, rfl, rfl, rfl, ?_, ?_, ⟨_, rfl⟩, ⟨_, rfl⟩, ⟨_, rfl⟩⟩
  · exact ⟨_, _, rfl, rfl⟩
  · cases hl : alookup oid m with
    | some info =>
      exact ⟨⟨some m⟩, [.orderStatus info.orderID info.status],
        by simp [receiveCluster, hl], rfl⟩
    | none =>
      exact ⟨⟨some m⟩, [.orderStatus oid "not found"],
        by simp [receiveCluster, hl], rfl⟩

/-- Witness for C4: the CreateOrder request at concrete inputs replies once. -/
theorem respond_exactly_once_witness :
    (receiveOrder (.createOrder "u" []) 3).length = 1 :=
  (respond_exactly_once 3 "u" "o" "r" "email" "hi" [] []).1

/-- C9: given the map has been allocated by `Started`, every step of the
keyed-store actor preserves the invariant that each record field `OrderID`
equals its key and its `Status` is "pending"; `GetOrderStatusCluster` leaves
the map unchanged; and under a fresh generated id, processing any user
message keeps every existing binding intact (entries are only added). -/
theorem cluster_invariant_preserved (m : List (String × OrderInfo))
    (msg : ClusterMsg) (now : Nat) (hinv : InvOrders m) :
    ∃ m' replies, receiveCluster ⟨some m⟩ msg now = .ok (⟨some m'⟩, replies) ∧
      InvOrders m' ∧
      (∀ oid, msg = .getOrderStatusCluster oid → m' = m) ∧
      (msg ≠ .started → alookup ("ORD-" ++ toString now) m = none →
        ∀ k v, alookup k m = some v → alookup k m' = some v) := by
  cases msg with
  | started =>
    refine ⟨[], [], rfl, ?_, ?_, ?_⟩
    · intro e he
      cases he
    · intro oid h
      exact nomatch h
    · intro hne
      exact absurd rfl hne
  | createOrderCluster uid its =>
    set oid := "ORD-" ++ toString now with hoid
    set info : OrderInfo :=
      { orderID := oid, userID := uid, items := its,
        status := "pending", createdAt := now } with hinfo
    refine ⟨mapInsert oid info m, [.orderResponse oid "pending" ""], rfl, ?_, ?_, ?_⟩
    · intro e he
      rcases List.mem_cons.mp he with rfl | hmem
      · exact ⟨rfl, rfl⟩
      · exact hinv e (mem_of_mem_removeEntry hmem)
    · intro o h
      exact nomatch h
    · intro _ hfresh k v hkv
      have hkne : k ≠ oid := by
        intro hk
        rw [hk, hfresh] at hkv
        cases hkv
      have hstep : alookup k (mapInsert oid info m) = alookup k (removeEntry oid m) := by
        simp [mapInsert, alookup, Ne.symm hkne]
      rw [hstep, alookup_removeEntry_ne k oid m hkne]
      exact hkv
  | getOrderStatusCluster oid =>
    cases hl : alookup oid m with
    | some info =>
      refine ⟨m, [.orderStatus info.orderID info.status],
        by simp [receiveCluster, hl], hinv, fun _ _ => rfl, fun _ _ _ _ h => h⟩
    | none =>
      refine ⟨m, [.orderStatus oid "not found"],
        by simp [receiveCluster, hl], hinv, fun _ _ => rfl, fun _ _ _ _ h => h⟩
  | stopping =>
    refine ⟨m, [], rfl, hinv, ?_, ?_⟩
    · intro o h
      exact nomatch h
    · intro _ _ k v h
      exact h
  | stopped =>
    refine ⟨m, [], rfl, hinv, ?_, ?_⟩
    · intro o h
      exact nomatch h
    · intro _ _ k v h
      exact h

/-- Witness for C9: one step of `CreateOrderCluster` on a singleton map. -/
theorem cluster_invariant_preserved_witness :
    ∃ m' replies,
      receiveCluster ⟨some [("ORD-1", (⟨"ORD-1", "u0", [], "pending", 1⟩ : OrderInfo))]⟩
        (.createOrderCluster "u1" []) 2 = .ok (⟨some m'⟩, replies) ∧
      InvOrders m' ∧
      (∀ oid, ClusterMsg.createOrderCluster "u1" [] = .getOrderStatusCluster oid →
        m' = [("ORD-1", (⟨"ORD-1", "u0", [], "pending", 1⟩ : OrderInfo))]) ∧
      (ClusterMsg.createOrderCluster "u1" [] ≠ .started →
        alookup ("ORD-" ++ toString 2)
          [("ORD-1", (⟨"ORD-1", "u0", [], "pending", 1⟩ : OrderInfo))] = none →
        ∀ k v,
          alookup k [("ORD-1", (⟨"ORD-1", "u0", [], "pending", 1⟩ : OrderInfo))] =
            some v →
          alookup k m' = some v) :=
  cluster_invariant_preserved [("ORD-1", (⟨"ORD-1", "u0", [], "pending", 1⟩ : OrderInfo))]
    (.createOrderCluster "u1" []) 2
    (by intro e he; rcases List.mem_cons.mp he with rfl | h
        · exact ⟨rfl, rfl⟩
        · cases h)

/-- C5: a store connection error when constructing the registry client is
fatal for the order service (its `main` aborts startup), but a soft-fail
for the gateway: it continues with no discovery client, and its
`ClientManager` then dials the static default addresses. -/
theorem startup_failure_asymmetry (e pre : String) (inst : ServiceInstance) :
    orderMainStartup pre (.error e) inst = .fatalEtcdConnect ∧
    gatewayMainDiscovery (.error e) = none ∧
    connectUserServiceTarget pre (gatewayMainDiscovery (.error e)) =
      "localhost:50051" ∧
    connectOrderServiceTarget pre (gatewayMainDiscovery (.error e)) =
      "localhost:50052" :=
  ⟨rfl, rfl, rfl, rfl⟩

/-- Witness for C5: a concrete connection error is fatal for the order
service and soft for the gateway. -/
theorem startup_failure_asymmetry_witness :
    orderMainStartup "/p/" (.error "connection refused") ⟨"order-service", "h", 1⟩ =
      .fatalEtcdConnect ∧
    gatewayMainDiscovery (.error "connection refused") = none ∧
    connectUserServiceTarget "/p/" (gatewayMainDiscovery (.error "connection refused")) =
      "localhost:50051" ∧
    connectOrderServiceTarget "/p/" (gatewayMainDiscovery (.error "connection refused")) =
      "localhost:50052" :=
  startup_failure_asymmetry "connection refused" "/p/" ⟨"order-service", "h", 1⟩

/-- C6: with a discovery client whose query succeeds non-emptily, `Connect`
dials the first returned address; with no discovery client, a failing
query, or an empty result, it dials the static default — `localhost:50051`
for user-service and `localhost:50052` for order-service. -/
theorem connect_target_resolution (pre : String) (st : EtcdState)
    (inst : ServiceInstance) (rest : List ServiceInstance) (err : String) :
    (Discover pre st "user-service" = .ok (inst :: rest) →
      connectUserServiceTarget pre (some st) = inst.host) ∧
    (Discover pre st "user-service" = .ok [] →
      connectUserServiceTarget pre (some st) = "localhost:50051") ∧
    (Discover pre st "user-service" = .error err →
      connectUserServiceTarget pre (some st) = "localhost:50051") ∧
    connectUserServiceTarget pre none = "localhost:50051" ∧
    (Discover pre st "order-service" = .ok (inst :: rest) →
      connectOrderServiceTarget pre (some st) = inst.host) ∧
    (Discover pre st "order-service" = .ok [] →
      connectOrderServiceTarget pre (some st) = "localhost:50052") ∧
    (Discover pre st "order-service" = .error err →
      connectOrderServiceTarget pre (some st) = "localhost:50052") ∧
    connectOrderServiceTarget pre none = "localhost:50052" := by
  refine ⟨?_, ?_, ?_, rfl, ?_, ?_, ?_, rfl⟩ <;> intro h <;>
    simp [connectUserServiceTarget, connectOrderServiceTarget, h]

/-- Witness for C6: a store holding one user-service record and no
order-service record resolves user-service to the stored address and
order-service to its static default. -/
theorem connect_target_resolution_witness :
    connectUserServiceTarget "/p/"
      (some ⟨true, [("/p/user-service/10.0.0.9:50051", "10.0.0.9:50051", 3)], 4⟩) =
      "10.0.0.9:50051" ∧
    connectOrderServiceTarget "/p/"
      (some ⟨true, [("/p/user-service/10.0.0.9:50051", "10.0.0.9:50051", 3)], 4⟩) =
      "localhost:50052" :=
  ⟨(connect_target_resolution "/p/"
      ⟨true, [("/p/user-service/10.0.0.9:50051", "10.0.0.9:50051", 3)], 4⟩
      ⟨"user-service", "10.0.0.9:50051", 0⟩ [] "").1 rfl,
   (connect_target_resolution "/p/"
      ⟨true, [("/p/user-service/10.0.0.9:50051", "10.0.0.9:50051", 3)], 4⟩
      ⟨"user-service", "10.0.0.9:50051", 0⟩ [] "").2.2.2.2.2.1 rfl⟩

/-- C8: `ClientManager.Close` attempts the close of every existing connection:
with both connections present and both closes failing, both wrapped errors
appear in the aggregate (user first, order second); and it returns nil
exactly when every existing connection closes without error. -/
theorem close_aggregates_errors (e1 e2 : String) (u o : ConnState) :
    clientManagerClose (some (.error e1)) (some (.error e2)) =
      .error ["user connection close error: " ++ e1,
        "order connection close error: " ++ e2] ∧
    (clientManagerClose u o = .ok () ↔
      (∀ r, u = some r → r = .ok ()) ∧ (∀ r, o = some r → r = .ok ())) := by
  constructor
  · rfl
  · cases u with
    | none =>
      cases o with
      | none => simp [clientManagerClose, closeErrs]
      | some r =>
        cases r with
        | ok x =>
          cases x
          simp [clientManagerClose, closeErrs]
          exact fun r hr => (Option.some.inj hr).symm
        | error e =>
          simp [clientManagerClose, closeErrs]
          exact ⟨_, rfl, fun hx => nomatch hx⟩
    | some r =>
      cases r with
      | ok x =>
        cases x
        cases o with
        | none =>
          simp [clientManagerClose, closeErrs]
          exact fun r hr => (Option.some.inj hr).symm
        | some r2 =>
          cases r2 with
          | ok x2 =>
            cases x2
            simp [clientManagerClose, closeErrs]
            exact fun r hr => (Option.some.inj hr).symm
          | error e =>
            simp [clientManagerClose, closeErrs]
            exact fun _ => ⟨_, rfl, fun hx => nomatch hx⟩
      | error e =>
        cases o with
        | none =>
          simp [clientManagerClose, closeErrs]
          exact ⟨_, rfl, fun hx => nomatch hx⟩
        | some r2 =>
          cases r2 with
          | ok x2 =>
            cases x2
            simp [clientManagerClose, closeErrs]
            exact fun h => absurd (h _ rfl) (fun hx => nomatch hx)
          | error e2x =>
            simp [clientManagerClose, closeErrs]
            exact fun h => absurd (h _ rfl) (fun hx => nomatch hx)

/-- Witness for C8: both connections exist, user close succeeds, order
connection absent — Close returns nil. -/
theorem close_aggregates_errors_witness :
    clientManagerClose (some (.ok ())) none = .ok () :=
  (close_aggregates_errors "x" "y" (some (.ok ())) none).2.mpr
    ⟨fun _ h => (Option.some.inj h).symm, fun _ h => nomatch h⟩

end Microshop
